import Mathlib

/-!
Verification of the slice-level PRB quota xApp
(`xapp_rc_slice_dynamic.c`): a shallow embedding of the RAN parameter
tree data model, the RRM-policy-ratio-list builder, the control-message
wrapper and the driver's node-count gate, together with theorems about
the properties the specification states for them.
-/

namespace XappRcSlice

/-! ### Parameter identifier catalog (enum `slice_level_PRB_quota_param_id_e`) -/

def RRM_Policy_Ratio_List_8_4_3_6 : Nat := 1
def RRM_Policy_Ratio_Group_8_4_3_6 : Nat := 2
def RRM_Policy_8_4_3_6 : Nat := 3
def RRM_Policy_Member_List_8_4_3_6 : Nat := 4
def RRM_Policy_Member_8_4_3_6 : Nat := 5
def PLMN_Identity_8_4_3_6 : Nat := 6
def S_NSSAI_8_4_3_6 : Nat := 7
def SST_8_4_3_6 : Nat := 8
def SD_8_4_3_6 : Nat := 9
def Min_PRB_Policy_Ratio_8_4_3_6 : Nat := 10
def Max_PRB_Policy_Ratio_8_4_3_6 : Nat := 11
def Dedicated_PRB_Policy_Ratio_8_4_3_6 : Nat := 12

/-! ### Recursive parameter value (`ran_param_value_t` union and friends)

`intEl` and `octEl` are the two flag-false element payloads used by the
source (`INTEGER_RAN_PARAMETER_VALUE`, `OCTET_STRING_RAN_PARAMETER_VALUE`);
`strct` is a `ran_param_struct_t` (ordered sequence of `seq_ran_param_t`,
each an identifier/value pair); `lst` is a `ran_param_list_t` whose
members are `lst_ran_param_t`, i.e. bare structures without their own
identifier, exactly as the source leaves the member ids unset. -/

inductive RanParamVal : Type where
  | intEl (v : Int)
  | octEl (s : String)
  | strct (children : List (Nat × RanParamVal))
  | lst (members : List (List (Nat × RanParamVal)))

/-- A `seq_ran_param_t`: parameter identifier paired with its value. -/
abbrev SeqRanParam := Nat × RanParamVal

/-! ### C `atoi` semantics used for the two environment overrides -/

def isSpaceChar (c : Char) : Bool :=
  c = ' ' || c = '\t' || c = '\n' || c = '\r' || c = '\x0b' || c = '\x0c'

def atoiDigits : List Char → Int → Int
  | [], acc => acc
  | c :: cs, acc =>
      if c.isDigit then atoiDigits cs (acc * 10 + (c.toNat - 48)) else acc

/-- `atoi`: skip leading whitespace, read an optional sign, then consume
leading decimal digits; a string with no leading integer yields 0. -/
def atoi (s : String) : Int :=
  match s.data.dropWhile isSpaceChar with
  | '-' :: rest => - atoiDigits rest 0
  | '+' :: rest => atoiDigits rest 0
  | cs => atoiDigits cs 0

/-! ### `gen_rrm_policy_ratio_group` -/

/-- One "RRM Policy Ratio Group" structure body: exactly 4 children in
the fixed source order (RRM Policy, Min PRB Policy Ratio, Max PRB Policy
Ratio, Dedicated PRB Policy Ratio), with the nested policy-member list
carrying the fixed PLMN identity and the per-slice S-NSSAI. -/
def gen_rrm_policy_ratio_group (sst_str sd_str : String)
    (min_ratio_prb dedicated_ratio_prb max_ratio_prb : Int) :
    List SeqRanParam :=
  [ (RRM_Policy_8_4_3_6,
      RanParamVal.strct
        [ (RRM_Policy_Member_List_8_4_3_6,
            RanParamVal.lst
              [ [ (PLMN_Identity_8_4_3_6, RanParamVal.octEl ("00101")),
                  (S_NSSAI_8_4_3_6,
                    RanParamVal.strct
                      [ (SST_8_4_3_6, RanParamVal.octEl sst_str),
                        (SD_8_4_3_6, RanParamVal.octEl sd_str) ]) ] ]) ]),
    (Min_PRB_Policy_Ratio_8_4_3_6, RanParamVal.intEl min_ratio_prb),
    (Max_PRB_Policy_Ratio_8_4_3_6, RanParamVal.intEl max_ratio_prb),
    (Dedicated_PRB_Policy_Ratio_8_4_3_6, RanParamVal.intEl dedicated_ratio_prb) ]

/-! ### `gen_rrm_policy_ratio_list` -/

/-- The environment-read step of `gen_rrm_policy_ratio_list`
(lines 200-211): initialize 20/80, overwrite with `atoi` of the
environment string when the variable is present. -/
def read_slice_ratios (env : String → Option String) : Int × Int :=
  (match env ("SLICE1_RATIO") with
   | some s => atoi s
   | none => 20,
   match env ("SLICE2_RATIO") with
   | some s => atoi s
   | none => 80)

def ratio_diag : String :=
  "Combined ratio of both slices must not be greater than 100. Set to 50:50"

/-- The validation step (lines 213-218): a sum above 100 resets both
ratios to 50 and emits the diagnostic line. -/
def validate_slice_ratios : Int × Int → (Int × Int) × List String
  | (r1, r2) =>
      if r1 + r2 > 100 then ((50, 50), [ratio_diag]) else ((r1, r2), [])

/-- The construction loop (lines 220-242): a list of `num_slice = 2`
policy ratio groups, with fixed SST strings "1"/"1", SD strings "1"/"5",
min and max ratios 0, and the two dedicated ratios. -/
def build_ratio_list (r1 r2 : Int) : SeqRanParam :=
  let num_slice := 2
  let sst_str := ["1", "1"]
  let sd_str := ["1", "5"]
  let dedicated_ratio_prb := [r1, r2]
  (RRM_Policy_Ratio_List_8_4_3_6,
   RanParamVal.lst
     ((List.range num_slice).map (fun i =>
       gen_rrm_policy_ratio_group (sst_str.getD i ("")) (sd_str.getD i (""))
         0 (dedicated_ratio_prb.getD i 0) 0)))

/-- `gen_rrm_policy_ratio_list`: read the two ratios from the
environment, validate their sum, build the list; the diagnostic log also
records the unconditional "Setting PRB Ratio" line printed after
validation (line 235). -/
def gen_rrm_policy_ratio_list (env : String → Option String) :
    SeqRanParam × List String :=
  let r := read_slice_ratios env
  match validate_slice_ratios r with
  | ((r1, r2), log) =>
      (build_ratio_list r1 r2,
       log ++ ["Setting PRB Ratio to " ++ toString r1 ++ ":" ++ toString r2])

/-! ### Control message wrapper (`gen_rc_ctrl_msg`) -/

inductive E2smRcCtrlMsgFmt : Type where
  | format1
  | format2
deriving DecidableEq

structure E2smRcCtrlMsgFrmt1 where
  ran_param : List SeqRanParam

structure E2smRcCtrlMsg where
  format : E2smRcCtrlMsgFmt
  frmt_1 : E2smRcCtrlMsgFrmt1

/-- `gen_rc_ctrl_msg_frmt_1_slice_level_PRB_quota` (lines 248-274): a
message body with exactly one top-level parameter, the RRM policy ratio
list. -/
def gen_rc_ctrl_msg_frmt_1_slice_level_PRB_quota
    (env : String → Option String) : E2smRcCtrlMsgFrmt1 × List String :=
  let r := gen_rrm_policy_ratio_list env
  ({ ran_param := [r.1] }, r.2)

/-- `gen_rc_ctrl_msg` (lines 277-289): format 1 wraps the slice-level
PRB quota body; any other format hits the fatal
"not implemented" assertion, modelled as `none`. -/
def gen_rc_ctrl_msg (msg_frmt : E2smRcCtrlMsgFmt)
    (env : String → Option String) :
    Option (E2smRcCtrlMsg × List String) :=
  match msg_frmt with
  | E2smRcCtrlMsgFmt.format1 =>
      let r := gen_rc_ctrl_msg_frmt_1_slice_level_PRB_quota env
      some ({ format := E2smRcCtrlMsgFmt.format1, frmt_1 := r.1 }, r.2)
  | E2smRcCtrlMsgFmt.format2 => none

/-! ### Driver (`main`, lines 311-360): node gate, build, fan-out -/

structure RunResult where
  aborted : Bool
  msg : Option E2smRcCtrlMsg
  log : List String
  sends : List Nat

/-- The driver: `assert(nodes.len > 0)` aborts the run before any
control message (hence any parameter tree) is constructed; otherwise the
format-1 control message is built once and sent to every node. -/
def main_run (nodes : List Nat) (env : String → Option String) : RunResult :=
  if nodes.length > 0 then
    match gen_rc_ctrl_msg E2smRcCtrlMsgFmt.format1 env with
    | some (m, lg) =>
        { aborted := false
          msg := some m
          log := ("Connected E2 nodes = " ++ toString nodes.length) :: lg
          sends := nodes }
    | none => { aborted := true, msg := none, log := [], sends := [] }
  else
    { aborted := true, msg := none, log := [], sends := [] }

/-! ### Observation functions on built trees -/

def listMembers : RanParamVal → List (List SeqRanParam)
  | RanParamVal.lst ms => ms
  | _ => []

/-- The two policy ratio groups of the built RRM policy ratio list. -/
def builtGroups (env : String → Option String) : List (List SeqRanParam) :=
  listMembers (gen_rrm_policy_ratio_list env).1.2

def intElemAt (group : List SeqRanParam) (i pid : Nat) : Option Int :=
  match group.get? i with
  | some (id, RanParamVal.intEl v) => if id = pid then some v else none
  | _ => none

def octElemAt (group : List SeqRanParam) (i pid : Nat) : Option String :=
  match group.get? i with
  | some (id, RanParamVal.octEl s) => if id = pid then some s else none
  | _ => none

def dedicatedRatioOf (group : List SeqRanParam) : Option Int :=
  intElemAt group 3 Dedicated_PRB_Policy_Ratio_8_4_3_6

def minRatioOf (group : List SeqRanParam) : Option Int :=
  intElemAt group 1 Min_PRB_Policy_Ratio_8_4_3_6

def maxRatioOf (group : List SeqRanParam) : Option Int :=
  intElemAt group 2 Max_PRB_Policy_Ratio_8_4_3_6

/-- The RRM policy member structures nested under a group's first child
(RRM Policy → RRM Policy Member List). -/
def policyMembersOf (group : List SeqRanParam) : List (List SeqRanParam) :=
  match group.get? 0 with
  | some (_, RanParamVal.strct [(_, RanParamVal.lst ms)]) => ms
  | _ => []

def snssaiOf (member : List SeqRanParam) : List SeqRanParam :=
  match member.get? 1 with
  | some (_, RanParamVal.strct cs) => cs
  | _ => []

def plmnOf (member : List SeqRanParam) : Option String :=
  octElemAt member 0 PLMN_Identity_8_4_3_6

def sstOf (member : List SeqRanParam) : Option String :=
  octElemAt (snssaiOf member) 0 SST_8_4_3_6

def sdOf (member : List SeqRanParam) : Option String :=
  octElemAt (snssaiOf member) 1 SD_8_4_3_6

/-! ### Shape predicates for the tree invariant -/

def snssaiShapeOK : RanParamVal → Bool
  | RanParamVal.strct cs => cs.map Prod.fst == [SST_8_4_3_6, SD_8_4_3_6]
  | _ => false

def memberShapeOK (member : List SeqRanParam) : Bool :=
  member.map Prod.fst == [PLMN_Identity_8_4_3_6, S_NSSAI_8_4_3_6] &&
  (match member.get? 1 with
   | some (_, v) => snssaiShapeOK v
   | none => false)

def groupShapeOK (group : List SeqRanParam) : Bool :=
  group.map Prod.fst ==
    [RRM_Policy_8_4_3_6, Min_PRB_Policy_Ratio_8_4_3_6,
     Max_PRB_Policy_Ratio_8_4_3_6, Dedicated_PRB_Policy_Ratio_8_4_3_6] &&
  (policyMembersOf group).all memberShapeOK

/-! ### Helper lemmas -/

theorem read_env_some (env : String → Option String) (s1 s2 : String)
    (h1 : env ("SLICE1_RATIO") = some s1)
    (h2 : env ("SLICE2_RATIO") = some s2) :
    read_slice_ratios env = (atoi s1, atoi s2) := by
  unfold read_slice_ratios
  rw [h1, h2]

theorem read_env_none (env : String → Option String)
    (h1 : env ("SLICE1_RATIO") = none)
    (h2 : env ("SLICE2_RATIO") = none) :
    read_slice_ratios env = (20, 80) := by
  unfold read_slice_ratios
  rw [h1, h2]

theorem validate_le (r1 r2 : Int) (h : r1 + r2 ≤ 100) :
    validate_slice_ratios (r1, r2) = ((r1, r2), []) := by
  show (if r1 + r2 > 100 then ((50, 50), [ratio_diag]) else ((r1, r2), []))
    = ((r1, r2), [])
  rw [if_neg (by omega)]

theorem validate_gt (r1 r2 : Int) (h : r1 + r2 > 100) :
    validate_slice_ratios (r1, r2) = ((50, 50), [ratio_diag]) := by
  show (if r1 + r2 > 100 then ((50, 50), [ratio_diag]) else ((r1, r2), []))
    = ((50, 50), [ratio_diag])
  rw [if_pos h]

theorem gen_list_eq (env : String → Option String) (r1 r2 : Int)
    (log : List String)
    (hv : validate_slice_ratios (read_slice_ratios env) = ((r1, r2), log)) :
    gen_rrm_policy_ratio_list env =
      (build_ratio_list r1 r2,
       log ++ ["Setting PRB Ratio to " ++ toString r1 ++ ":" ++ toString r2]) := by
  simp only [gen_rrm_policy_ratio_list, hv]

theorem build_groups_eq (r1 r2 : Int) :
    listMembers (build_ratio_list r1 r2).2 =
      [gen_rrm_policy_ratio_group ("1") ("1") 0 r1 0,
       gen_rrm_policy_ratio_group ("1") ("5") 0 r2 0] := rfl

theorem builtGroups_eq_general (env : String → Option String) :
    ∃ r1 r2 : Int, builtGroups env =
      [gen_rrm_policy_ratio_group ("1") ("1") 0 r1 0,
       gen_rrm_policy_ratio_group ("1") ("5") 0 r2 0] := by
  rcases hv : validate_slice_ratios (read_slice_ratios env) with ⟨⟨r1, r2⟩, log⟩
  refine ⟨r1, r2, ?_⟩
  simp only [builtGroups, gen_list_eq env r1 r2 log hv]
  exact build_groups_eq r1 r2

theorem dedicated_of_group (a b : String) (mn d mx : Int) :
    dedicatedRatioOf (gen_rrm_policy_ratio_group a b mn d mx) = some d := rfl

theorem min_of_group (a b : String) (mn d mx : Int) :
    minRatioOf (gen_rrm_policy_ratio_group a b mn d mx) = some mn := rfl

theorem max_of_group (a b : String) (mn d mx : Int) :
    maxRatioOf (gen_rrm_policy_ratio_group a b mn d mx) = some mx := rfl

theorem sst_of_group (a b : String) (mn d mx : Int) :
    sstOf ((policyMembersOf (gen_rrm_policy_ratio_group a b mn d mx)).getD 0 [])
      = some a := rfl

theorem sd_of_group (a b : String) (mn d mx : Int) :
    sdOf ((policyMembersOf (gen_rrm_policy_ratio_group a b mn d mx)).getD 0 [])
      = some b := rfl

theorem plmn_of_group (a b : String) (mn d mx : Int) :
    plmnOf ((policyMembersOf (gen_rrm_policy_ratio_group a b mn d mx)).getD 0 [])
      = some ("00101") := rfl

theorem groupShapeOK_group (a b : String) (mn d mx : Int) :
    groupShapeOK (gen_rrm_policy_ratio_group a b mn d mx) = true := rfl

/-! ### Claim theorems -/

/-- C1: for every pair of configured slice ratio values whose sum is at
most 100, the built RRM policy ratio list has exactly 2 policy ratio
group members, and the Dedicated PRB Policy Ratio element of member 0
equals the first ratio and that of member 1 equals the second, in that
order. -/
theorem dedicated_ratios_match_inputs_of_sum_le_100
    (env : String → Option String) (s1 s2 : String)
    (h1 : env ("SLICE1_RATIO") = some s1)
    (h2 : env ("SLICE2_RATIO") = some s2)
    (hsum : atoi s1 + atoi s2 ≤ 100) :
    (builtGroups env).length = 2 ∧
    dedicatedRatioOf ((builtGroups env).getD 0 []) = some (atoi s1) ∧
    dedicatedRatioOf ((builtGroups env).getD 1 []) = some (atoi s2) := by
  have hv : validate_slice_ratios (read_slice_ratios env)
      = ((atoi s1, atoi s2), []) := by
    rw [read_env_some env s1 s2 h1 h2]
    exact validate_le (atoi s1) (atoi s2) hsum
  simp only [builtGroups, gen_list_eq env (atoi s1) (atoi s2) [] hv,
    build_groups_eq]
  exact ⟨rfl, dedicated_of_group _ _ _ _ _, dedicated_of_group _ _ _ _ _⟩

/-- Witness for C1 at SLICE1_RATIO=20, SLICE2_RATIO=80. -/
theorem dedicated_ratios_match_inputs_of_sum_le_100_witness :
    ((fun n => if n = "SLICE1_RATIO" then some ("20")
        else if n = "SLICE2_RATIO" then some ("80") else none)
      ("SLICE1_RATIO") = some ("20")) ∧
    atoi ("20") + atoi ("80") ≤ 100 ∧
    ((builtGroups (fun n => if n = "SLICE1_RATIO" then some ("20")
        else if n = "SLICE2_RATIO" then some ("80") else none)).length = 2 ∧
     dedicatedRatioOf ((builtGroups (fun n =>
        if n = "SLICE1_RATIO" then some ("20")
        else if n = "SLICE2_RATIO" then some ("80") else none)).getD 0 [])
       = some (atoi ("20")) ∧
     dedicatedRatioOf ((builtGroups (fun n =>
        if n = "SLICE1_RATIO" then some ("20")
        else if n = "SLICE2_RATIO" then some ("80") else none)).getD 1 [])
       = some (atoi ("80"))) :=
  ⟨rfl, by decide,
   dedicated_ratios_match_inputs_of_sum_le_100 _ ("20") ("80") rfl rfl
     (by decide)⟩

/-- C2: when both ratios are configured and their sum exceeds 100, the
builder logs the correction diagnostic and both Dedicated PRB Policy
Ratio elements equal 50, whatever the original values; when the sum is
at most 100 the configured values pass through unchanged. -/
theorem ratio_sum_gt_100_resets_to_50_50
    (env : String → Option String) (s1 s2 : String)
    (h1 : env ("SLICE1_RATIO") = some s1)
    (h2 : env ("SLICE2_RATIO") = some s2) :
    (atoi s1 + atoi s2 > 100 →
       dedicatedRatioOf ((builtGroups env).getD 0 []) = some 50 ∧
       dedicatedRatioOf ((builtGroups env).getD 1 []) = some 50 ∧
       ratio_diag ∈ (gen_rrm_policy_ratio_list env).2) ∧
    (atoi s1 + atoi s2 ≤ 100 →
       dedicatedRatioOf ((builtGroups env).getD 0 []) = some (atoi s1) ∧
       dedicatedRatioOf ((builtGroups env).getD 1 []) = some (atoi s2)) := by
  constructor
  · intro hgt
    have hv : validate_slice_ratios (read_slice_ratios env)
        = ((50, 50), [ratio_diag]) := by
      rw [read_env_some env s1 s2 h1 h2]
      exact validate_gt (atoi s1) (atoi s2) hgt
    simp only [builtGroups, gen_list_eq env 50 50 [ratio_diag] hv,
      build_groups_eq]
    refine ⟨dedicated_of_group _ _ _ _ _, dedicated_of_group _ _ _ _ _, ?_⟩
    exact List.mem_append_left _ (List.mem_singleton.mpr rfl)
  · intro hle
    have hv : validate_slice_ratios (read_slice_ratios env)
        = ((atoi s1, atoi s2), []) := by
      rw [read_env_some env s1 s2 h1 h2]
      exact validate_le (atoi s1) (atoi s2) hle
    simp only [builtGroups, gen_list_eq env (atoi s1) (atoi s2) [] hv,
      build_groups_eq]
    exact ⟨dedicated_of_group _ _ _ _ _, dedicated_of_group _ _ _ _ _⟩

/-- Witness for C2 at SLICE1_RATIO=70, SLICE2_RATIO=90 (sum 160). -/
theorem ratio_sum_gt_100_resets_to_50_50_witness :
    ((fun n => if n = "SLICE1_RATIO" then some ("70")
        else if n = "SLICE2_RATIO" then some ("90") else none)
      ("SLICE1_RATIO") = some ("70")) ∧
    ((atoi ("70") + atoi ("90") > 100 →
        dedicatedRatioOf ((builtGroups (fun n =>
          if n = "SLICE1_RATIO" then some ("70")
          else if n = "SLICE2_RATIO" then some ("90") else none)).getD 0 [])
          = some 50 ∧
        dedicatedRatioOf ((builtGroups (fun n =>
          if n = "SLICE1_RATIO" then some ("70")
          else if n = "SLICE2_RATIO" then some ("90") else none)).getD 1 [])
          = some 50 ∧
        ratio_diag ∈ (gen_rrm_policy_ratio_list (fun n =>
          if n = "SLICE1_RATIO" then some ("70")
          else if n = "SLICE2_RATIO" then some ("90") else none)).2) ∧
     (atoi ("70") + atoi ("90") ≤ 100 →
        dedicatedRatioOf ((builtGroups (fun n =>
          if n = "SLICE1_RATIO" then some ("70")
          else if n = "SLICE2_RATIO" then some ("90") else none)).getD 0 [])
          = some (atoi ("70")) ∧
        dedicatedRatioOf ((builtGroups (fun n =>
          if n = "SLICE1_RATIO" then some ("70")
          else if n = "SLICE2_RATIO" then some ("90") else none)).getD 1 [])
          = some (atoi ("90")))) :=
  ⟨rfl, ratio_sum_gt_100_resets_to_50_50 _ ("70") ("90") rfl rfl⟩

/-- C7: when neither SLICE1_RATIO nor SLICE2_RATIO is set, the builder
uses the default dedicated ratios 20 (first slice) and 80 (second
slice). -/
theorem default_ratios_when_env_absent (env : String → Option String)
    (h1 : env ("SLICE1_RATIO") = none)
    (h2 : env ("SLICE2_RATIO") = none) :
    dedicatedRatioOf ((builtGroups env).getD 0 []) = some 20 ∧
    dedicatedRatioOf ((builtGroups env).getD 1 []) = some 80 := by
  have hv : validate_slice_ratios (read_slice_ratios env)
      = ((20, 80), []) := by
    rw [read_env_none env h1 h2]
    exact validate_le 20 80 (by omega)
  simp only [builtGroups, gen_list_eq env 20 80 [] hv, build_groups_eq]
  exact ⟨dedicated_of_group _ _ _ _ _, dedicated_of_group _ _ _ _ _⟩

/-- Witness for C7 with an empty environment. -/
theorem default_ratios_when_env_absent_witness :
    ((fun _ => (none : Option String)) ("SLICE1_RATIO") = none) ∧
    (dedicatedRatioOf
        ((builtGroups (fun _ => (none : Option String))).getD 0 [])
      = some 20 ∧
     dedicatedRatioOf
        ((builtGroups (fun _ => (none : Option String))).getD 1 [])
      = some 80) :=
  ⟨rfl, default_ratios_when_env_absent _ rfl rfl⟩

/-- C10: no individual range check is applied to either ratio: any
configured pair summing to at most 100 — including a negative member or
a member above 100, such as (-50, 140) — is propagated unmodified into
the two Dedicated PRB Policy Ratio elements. -/
theorem no_individual_range_check
    (env : String → Option String) (s1 s2 : String)
    (h1 : env ("SLICE1_RATIO") = some s1)
    (h2 : env ("SLICE2_RATIO") = some s2)
    (hsum : atoi s1 + atoi s2 ≤ 100) :
    dedicatedRatioOf ((builtGroups env).getD 0 []) = some (atoi s1) ∧
    dedicatedRatioOf ((builtGroups env).getD 1 []) = some (atoi s2) := by
  have hv : validate_slice_ratios (read_slice_ratios env)
      = ((atoi s1, atoi s2), []) := by
    rw [read_env_some env s1 s2 h1 h2]
    exact validate_le (atoi s1) (atoi s2) hsum
  simp only [builtGroups, gen_list_eq env (atoi s1) (atoi s2) [] hv,
    build_groups_eq]
  exact ⟨dedicated_of_group _ _ _ _ _, dedicated_of_group _ _ _ _ _⟩

/-- Witness for C10 at the out-of-range pair SLICE1_RATIO=-50,
SLICE2_RATIO=140 (sum 90). -/
theorem no_individual_range_check_witness :
    atoi ("-50") = -50 ∧ atoi ("140") = 140 ∧
    atoi ("-50") + atoi ("140") ≤ 100 ∧
    (dedicatedRatioOf ((builtGroups (fun n =>
        if n = "SLICE1_RATIO" then some ("-50")
        else if n = "SLICE2_RATIO" then some ("140") else none)).getD 0 [])
      = some (atoi ("-50")) ∧
     dedicatedRatioOf ((builtGroups (fun n =>
        if n = "SLICE1_RATIO" then some ("-50")
        else if n = "SLICE2_RATIO" then some ("140") else none)).getD 1 [])
      = some (atoi ("140"))) :=
  ⟨by decide, by decide, by decide,
   no_individual_range_check _ ("-50") ("140") rfl rfl (by decide)⟩

/-- C3: in every tree the builder produces, each policy ratio group has
exactly 4 children with identifiers in the fixed order (RRM Policy, Min
PRB Policy Ratio, Max PRB Policy Ratio, Dedicated PRB Policy Ratio);
each RRM policy member has exactly 2 children (PLMN Identity, S-NSSAI);
and each S-NSSAI has exactly 2 children (SST, SD). -/
theorem built_tree_shape_invariant (env : String → Option String) :
    (builtGroups env).all groupShapeOK = true := by
  obtain ⟨r1, r2, heq⟩ := builtGroups_eq_general env
  rw [heq]
  simp only [List.all_cons, List.all_nil, groupShapeOK_group,
    Bool.and_self, Bool.and_true]

/-- C8: in every built tree, both policy ratio groups carry SST "1",
the SD octet strings are "1" and "5" respectively, and the Min and Max
PRB Policy Ratio elements are 0 in both groups. -/
theorem fixed_sst_sd_min_max_fields (env : String → Option String) :
    (builtGroups env).length = 2 ∧
    sstOf ((policyMembersOf ((builtGroups env).getD 0 [])).getD 0 [])
      = some ("1") ∧
    sstOf ((policyMembersOf ((builtGroups env).getD 1 [])).getD 0 [])
      = some ("1") ∧
    sdOf ((policyMembersOf ((builtGroups env).getD 0 [])).getD 0 [])
      = some ("1") ∧
    sdOf ((policyMembersOf ((builtGroups env).getD 1 [])).getD 0 [])
      = some ("5") ∧
    minRatioOf ((builtGroups env).getD 0 []) = some 0 ∧
    minRatioOf ((builtGroups env).getD 1 []) = some 0 ∧
    maxRatioOf ((builtGroups env).getD 0 []) = some 0 ∧
    maxRatioOf ((builtGroups env).getD 1 []) = some 0 := by
  obtain ⟨r1, r2, heq⟩ := builtGroups_eq_general env
  rw [heq]
  exact ⟨rfl, sst_of_group _ _ _ _ _, sst_of_group _ _ _ _ _,
    sd_of_group _ _ _ _ _, sd_of_group _ _ _ _ _,
    min_of_group _ _ _ _ _, min_of_group _ _ _ _ _,
    max_of_group _ _ _ _ _, max_of_group _ _ _ _ _⟩

/-- C9: in every built tree, the PLMN Identity element of each RRM
policy member is the fixed 5-byte octet string "00101", independent of
all inputs. -/
theorem plmn_identity_fixed (env : String → Option String) :
    plmnOf ((policyMembersOf ((builtGroups env).getD 0 [])).getD 0 [])
      = some ("00101") ∧
    plmnOf ((policyMembersOf ((builtGroups env).getD 1 [])).getD 0 [])
      = some ("00101") ∧
    String.length ("00101") = 5 := by
  obtain ⟨r1, r2, heq⟩ := builtGroups_eq_general env
  rw [heq]
  exact ⟨plmn_of_group _ _ _ _ _, plmn_of_group _ _ _ _ _, rfl⟩

/-- C6: with an empty discovered-node list the run aborts before any
parameter tree is constructed: the result carries no control message and
an empty log, while every invocation of the tree builder necessarily
contributes at least the "Setting PRB Ratio" log line. -/
theorem empty_node_list_aborts_before_build (env : String → Option String) :
    (main_run [] env).aborted = true ∧
    (main_run [] env).msg = none ∧
    (main_run [] env).log = [] ∧
    (main_run [] env).sends = [] ∧
    (∀ e : String → Option String, (gen_rrm_policy_ratio_list e).2 ≠ []) := by
  refine ⟨rfl, rfl, rfl, rfl, fun e => ?_⟩
  rcases hv : validate_slice_ratios (read_slice_ratios e) with ⟨⟨r1, r2⟩, log⟩
  rw [gen_list_eq e r1 r2 log hv]
  simp

/-- C5 counterexample: the control-message builder fails on the
unimplemented format 2 even though the format-1 body it would wrap is
never empty, so "fails if and only if the body tree is empty" is false
as stated. -/
theorem ctrl_msg_failure_nonempty_body_counterexample :
    gen_rc_ctrl_msg E2smRcCtrlMsgFmt.format2 (fun _ => none) = none ∧
    (gen_rc_ctrl_msg_frmt_1_slice_level_PRB_quota
        (fun _ => none)).1.ran_param ≠ [] :=
  ⟨rfl, fun h => List.noConfusion h⟩

/-- C5 amended: `gen_rc_ctrl_msg` succeeds if and only if the requested
format is format 1; for format 1 it wraps the slice-level PRB quota body
— which always holds exactly one top-level parameter, hence is never
empty — as a format-1 control message. -/
theorem ctrl_msg_succeeds_iff_format1 (msg_frmt : E2smRcCtrlMsgFmt)
    (env : String → Option String) :
    ((gen_rc_ctrl_msg msg_frmt env).isSome ↔
       msg_frmt = E2smRcCtrlMsgFmt.format1) ∧
    gen_rc_ctrl_msg E2smRcCtrlMsgFmt.format1 env =
      some ({ format := E2smRcCtrlMsgFmt.format1,
              frmt_1 := { ran_param := [(gen_rrm_policy_ratio_list env).1] } },
            (gen_rrm_policy_ratio_list env).2) ∧
    (gen_rc_ctrl_msg_frmt_1_slice_level_PRB_quota env).1.ran_param ≠ [] := by
  refine ⟨?_, rfl, fun h => List.noConfusion h⟩
  cases msg_frmt
  · simp [gen_rc_ctrl_msg]
  · simp [gen_rc_ctrl_msg]

/-- C4 counterexample: with SLICE1_RATIO present but unparsable
("abc") and SLICE2_RATIO absent, the first slice's Dedicated PRB Policy
Ratio is 0 (the `atoi` result), not the default 20 the claim
promises. -/
theorem unparsable_ratio_counterexample :
    dedicatedRatioOf ((builtGroups (fun n =>
        if n = "SLICE1_RATIO" then some ("abc") else none)).getD 0 [])
      = some 0 ∧
    dedicatedRatioOf ((builtGroups (fun n =>
        if n = "SLICE1_RATIO" then some ("abc") else none)).getD 0 [])
      ≠ some 20 := by
  constructor
  · decide
  · decide

/-- C4 amended: a ratio override that is present but carries no leading
integer is converted by `atoi` to 0 and that 0 is used for the slice;
the defaults 20 and 80 apply only when the respective variable is
absent. -/
theorem unparsable_ratio_yields_zero
    (env env2 : String → Option String) (s1 s2 : String)
    (h1 : env ("SLICE1_RATIO") = some s1)
    (h2 : env ("SLICE2_RATIO") = none)
    (hz1 : atoi s1 = 0)
    (h1b : env2 ("SLICE1_RATIO") = none)
    (h2b : env2 ("SLICE2_RATIO") = some s2)
    (hz2 : atoi s2 = 0) :
    (dedicatedRatioOf ((builtGroups env).getD 0 []) = some 0 ∧
     dedicatedRatioOf ((builtGroups env).getD 1 []) = some 80) ∧
    (dedicatedRatioOf ((builtGroups env2).getD 0 []) = some 20 ∧
     dedicatedRatioOf ((builtGroups env2).getD 1 []) = some 0) := by
  constructor
  · have hr : read_slice_ratios env = (0, 80) := by
      unfold read_slice_ratios
      simp only [h1, h2, hz1]
    have hv : validate_slice_ratios (read_slice_ratios env)
        = ((0, 80), []) := by
      rw [hr]
      exact validate_le 0 80 (by omega)
    simp only [builtGroups, gen_list_eq env 0 80 [] hv, build_groups_eq]
    exact ⟨dedicated_of_group _ _ _ _ _, dedicated_of_group _ _ _ _ _⟩
  · have hr : read_slice_ratios env2 = (20, 0) := by
      unfold read_slice_ratios
      simp only [h1b, h2b, hz2]
    have hv : validate_slice_ratios (read_slice_ratios env2)
        = ((20, 0), []) := by
      rw [hr]
      exact validate_le 20 0 (by omega)
    simp only [builtGroups, gen_list_eq env2 20 0 [] hv, build_groups_eq]
    exact ⟨dedicated_of_group _ _ _ _ _, dedicated_of_group _ _ _ _ _⟩

/-- Witness for the amended C4 at the unparsable overrides "abc" and
"xyz". -/
theorem unparsable_ratio_yields_zero_witness :
    atoi ("abc") = 0 ∧ atoi ("xyz") = 0 ∧
    ((dedicatedRatioOf ((builtGroups (fun n =>
         if n = "SLICE1_RATIO" then some ("abc") else none)).getD 0 [])
       = some 0 ∧
      dedicatedRatioOf ((builtGroups (fun n =>
         if n = "SLICE1_RATIO" then some ("abc") else none)).getD 1 [])
       = some 80) ∧
     (dedicatedRatioOf ((builtGroups (fun n =>
         if n = "SLICE2_RATIO" then some ("xyz") else none)).getD 0 [])
       = some 20 ∧
      dedicatedRatioOf ((builtGroups (fun n =>
         if n = "SLICE2_RATIO" then some ("xyz") else none)).getD 1 [])
       = some 0)) :=
  ⟨by decide, by decide,
   unparsable_ratio_yields_zero _ _ ("abc") ("xyz") rfl rfl (by decide)
     rfl rfl (by decide)⟩

end XappRcSlice
